import Mathlib

/-!
Verification of the cli-top VTOP client's aggregation core.

This file gives a shallow embedding of the scraping/aggregation logic of the
repository (src/features/ai-data-builder.go, the marks feature file and the
attendance-calculator feature file) and proves properties of the embedded
functions against the system specification.

Modelling conventions:
* Go `float64` arithmetic is modelled exactly over `ℚ` (the computations at
  issue only add, subtract, multiply, divide, floor and ceil decimal
  constants, so exact rational arithmetic is the intended real semantics).
* Go `int` is modelled as `Int`; Go integer division truncates toward zero,
  which is `Int.tdiv`.
* Network fetches and the goquery DOM are not modelled; each embedded
  function takes the textual cell contents (or, for candidate-term loops,
  a per-term fetch outcome function) as input, exactly at the boundary where
  the Go code reads `.Text()` of selected nodes.
-/

namespace CliTop

/-! ## Character-level string utilities (models of Go strings/strconv/fmt) -/

/-- Value of a list of decimal digit characters, most significant first. -/
def natOfDigits (ds : List Char) : Nat :=
  ds.foldl (fun acc c => acc * 10 + (c.toNat - '0'.toNat)) 0

/-- Model of Go `strings.TrimSpace`: drop whitespace from both ends. -/
def trimChars (l : List Char) : List Char :=
  ((l.dropWhile Char.isWhitespace).reverse.dropWhile Char.isWhitespace).reverse

/-- `strings.TrimSpace` on `String`. -/
def trimS (s : String) : String := String.mk (trimChars s.data)

/-- Drop trailing whitespace only (used for the `\s*` that precedes a dash in
the professor-name regular expression). -/
def trimRightS (s : String) : String :=
  String.mk ((s.data.reverse.dropWhile Char.isWhitespace).reverse)

/-- Split a character list at every occurrence of `c`; always returns at least
one (possibly empty) part, like Go `strings.Split`. -/
def splitOnCharL (c : Char) (l : List Char) : List (List Char) :=
  l.foldr
    (fun ch acc =>
      if ch = c then [] :: acc
      else
        match acc with
        | h :: t => (ch :: h) :: t
        | [] => [[ch]])
    [[]]

/-- Split a string at every `-` character. -/
def splitOnDashS (s : String) : List String :=
  (splitOnCharL '-' s.data).map String.mk

/-- Join character-list words with a single joining character between them. -/
def joinWithChar (c : Char) : List (List Char) → List Char
  | [] => []
  | [x] => x
  | x :: y :: xs => x ++ c :: joinWithChar c (y :: xs)

/-- Model of Go `strings.Join(elems, sep)`. -/
def joinSep (sep : String) : List String → String
  | [] => ""
  | [x] => x
  | x :: y :: xs => x ++ sep ++ joinSep sep (y :: xs)

/-- Model of Go `strconv.Atoi`: an optional sign followed by one or more
digits parses to the signed value; anything else is an error (`none`). -/
def goAtoi (s : String) : Option Int :=
  match s.data with
  | [] => none
  | '-' :: rest =>
    if rest ≠ [] ∧ rest.all Char.isDigit then some (-(natOfDigits rest : Int)) else none
  | '+' :: rest =>
    if rest ≠ [] ∧ rest.all Char.isDigit then some (natOfDigits rest : Int) else none
  | l => if l.all Char.isDigit then some (natOfDigits l : Int) else none

/-- Model of `fmt.Sscanf(s, "%d", &x)` into a zero-initialised Go `int`:
the longest leading signed digit run parses (trailing junk is ignored); on
no digits the target keeps its zero value. -/
def goScanInt (s : String) : Int :=
  match s.data with
  | '-' :: rest =>
    if rest.takeWhile Char.isDigit = [] then 0
    else -(natOfDigits (rest.takeWhile Char.isDigit) : Int)
  | '+' :: rest =>
    if rest.takeWhile Char.isDigit = [] then 0
    else (natOfDigits (rest.takeWhile Char.isDigit) : Int)
  | l =>
    if l.takeWhile Char.isDigit = [] then 0
    else (natOfDigits (l.takeWhile Char.isDigit) : Int)

/-- Unsigned part of the `%f` scan: integer digits with an optional fractional
part (the decimal forms the portal emits); no digits at all means the scan
fails and the zero-initialised target keeps 0. -/
def goScanFloatCore (l : List Char) (sign : ℚ) : ℚ :=
  let ip := l.takeWhile Char.isDigit
  let rest := l.dropWhile Char.isDigit
  let fd := match rest with
    | '.' :: fr => fr.takeWhile Char.isDigit
    | _ => []
  if ip = [] ∧ fd = [] then 0
  else sign * ((natOfDigits ip : ℚ) + (natOfDigits fd : ℚ) / (10 : ℚ) ^ fd.length)

/-- Model of `fmt.Sscanf(s, "%f", &x)` into a zero-initialised Go `float64`,
with `float64` values read exactly as rationals. -/
def goScanFloat (s : String) : ℚ :=
  match s.data with
  | '-' :: rest => goScanFloatCore rest (-1)
  | '+' :: rest => goScanFloatCore rest 1
  | l => goScanFloatCore l 1

/-! ## Data model (`cli-top/types`, fields as read and written by the
embedded functions; `float64` fields are `ℚ`, timestamps are `Nat`) -/

/-- One assessment component row of `types.CourseMarksSummary`. -/
structure CourseMarksComponent where
  title : String := ""
  status : String := ""
  maxMarks : ℚ := 0
  weightage : ℚ := 0
  scoredMarks : ℚ := 0
  weightageMark : ℚ := 0
  deriving Repr, DecidableEq

/-- `types.CourseMarksSummary`. -/
structure CourseMarksSummary where
  courseCode : String := ""
  courseTitle : String := ""
  courseType : String := ""
  faculty : String := ""
  slot : String := ""
  components : List CourseMarksComponent := []
  totalScored : ℚ := 0
  totalWeight : ℚ := 0
  deriving Repr, DecidableEq

/-- `types.AttendanceRecord`. -/
structure AttendanceRecord where
  courseCode : String := ""
  courseName : String := ""
  courseType : String := ""
  faculty : String := ""
  attended : Int := 0
  total : Int := 0
  percentage : ℚ := 0
  deriving Repr, DecidableEq

/-- Modelled from the spec: `types.ExamEvent` (the `cli-top/types` package is
not among the provided sources); spec §3 Exam Event: course code, exam
title/slot, date/time, venue, tied to the term it was fetched under. -/
structure ExamEvent where
  courseCode : String := ""
  title : String := ""
  slot : String := ""
  dateTime : String := ""
  venue : String := ""
  term : String := ""
  deriving Repr, DecidableEq

/-- `types.TimetableEntry`: day-of-week, course label, slot. -/
structure TimetableEntry where
  day : String := ""
  course : String := ""
  slot : String := ""
  deriving Repr, DecidableEq

/-- `types.CGPASnapshot`: term label and the cumulative grade-point value
parsed for that row of the grade-history table. -/
structure CGPASnapshot where
  semester : String := ""
  cgpa : ℚ := 0
  deriving Repr, DecidableEq

/-- `types.VTOPAIData`: the export document built by `BuildAIData`.
Field defaults are the Go zero values of `var data types.VTOPAIData`. -/
structure VTOPAIData where
  regNo : String := ""
  generatedAt : Nat := 0
  marks : List CourseMarksSummary := []
  attendance : List AttendanceRecord := []
  exams : List ExamEvent := []
  timetable : List TimetableEntry := []
  cgpa : ℚ := 0
  cgpaTrend : List CGPASnapshot := []
  semester : String := ""
  deriving Repr, DecidableEq

/-! ## BuildAIData (src/features/ai-data-builder.go, lines 15-71) -/

/-- Embedding of the body of `BuildAIData`. The five collectors are network
functions; each outcome is passed in as an `Except` value (`.error e` models
`err != nil`), and `time.Now()` is passed in as `now`. Returns the document
together with the accumulated `errors` slice, in accumulation order. -/
def buildAIDataCore (regNo : String) (now : Nat)
    (marksR : Except String (List CourseMarksSummary))
    (attendanceR : Except String (List AttendanceRecord))
    (examsR : Except String (List ExamEvent))
    (timetableR : Except String (List TimetableEntry))
    (cgpaR : Except String (ℚ × List CGPASnapshot × String)) :
    VTOPAIData × List String :=
  let data : VTOPAIData := { regNo := regNo, generatedAt := now }
  let s1 : VTOPAIData × List String :=
    match marksR with
    | .ok marks => ({ data with marks := marks }, [])
    | .error e => (data, ["marks: " ++ e])
  let s2 : VTOPAIData × List String :=
    match attendanceR with
    | .ok attendance => ({ s1.1 with attendance := attendance }, s1.2)
    | .error e => (s1.1, s1.2 ++ ["attendance: " ++ e])
  let s3 : VTOPAIData × List String :=
    match examsR with
    | .ok exams => ({ s2.1 with exams := exams }, s2.2)
    | .error e => (s2.1, s2.2 ++ ["exams: " ++ e])
  let s4 : VTOPAIData × List String :=
    match timetableR with
    | .ok timetable => ({ s3.1 with timetable := timetable }, s3.2)
    | .error e => (s3.1, s3.2 ++ ["timetable: " ++ e])
  let s5 : VTOPAIData × List String :=
    match cgpaR with
    | .ok r => ({ s4.1 with cgpa := r.1, cgpaTrend := r.2.1, semester := r.2.2 }, s4.2)
    | .error e => (s4.1, s4.2 ++ ["cgpa: " ++ e])
  s5

/-- `BuildAIData`'s return: the document plus `nil` or the combined
`fmt.Errorf("partial data collection errors: %s", strings.Join(errors, "; "))`. -/
def buildAIData (regNo : String) (now : Nat)
    (marksR : Except String (List CourseMarksSummary))
    (attendanceR : Except String (List AttendanceRecord))
    (examsR : Except String (List ExamEvent))
    (timetableR : Except String (List TimetableEntry))
    (cgpaR : Except String (ℚ × List CGPASnapshot × String)) :
    VTOPAIData × Option String :=
  let r := buildAIDataCore regNo now marksR attendanceR examsR timetableR cgpaR
  if r.2 = [] then (r.1, none)
  else (r.1, some ("partial data collection errors: " ++ joinSep "; " r.2))

/-- Spec-side helper: the value of a collector outcome, or the slice's Go zero
value when the collector failed. -/
def valueOr {α : Type} (r : Except String α) (d : α) : α :=
  match r with
  | .ok v => v
  | .error _ => d

/-- Spec-side helper: the diagnostic entries one collector outcome
contributes (`kind: err` on failure, nothing on success). -/
def kindError {α : Type} (kind : String) (r : Except String α) : List String :=
  match r with
  | .ok _ => []
  | .error e => [kind ++ ": " ++ e]

/-! ## Candidate-term fallback loops -/

/-- Whether one candidate-term attempt of `GetAttendance` counts as "found":
the fetch and parse succeeded and `findAndSaveAttendance` returned more than
the header row. -/
def attendanceFound (r : Option (List (List String))) : Bool :=
  match r with
  | some l => decide (1 < l.length)
  | none => false

/-- Embedding of the semester loop of `GetAttendance`
(attendance-calculator feature file, lines 244-277), already in iteration
order. `attempt semID = none` models a `FetchReq`/goquery error (`continue`);
`some l` models the `findAndSaveAttendance` result for that semester. The
loop stops at the first semester whose table has a data row beyond the
header. -/
def getAttendanceSearchRev (attempt : String → Option (List (List String))) :
    List String → Option (String × List (List String))
  | [] => none
  | semID :: rest =>
    match attempt semID with
    | some l =>
      if 1 < l.length then some (semID, l) else getAttendanceSearchRev attempt rest
    | none => getAttendanceSearchRev attempt rest

/-- `GetAttendance` iterates `semDetails` from the last index down to the
first ("from the latest semester to the earliest"): the loop order is the
reverse of the stored oldest-first list. -/
def getAttendanceSearch (attempt : String → Option (List (List String)))
    (semDetails : List String) : Option (String × List (List String)) :=
  getAttendanceSearchRev attempt semDetails.reverse

/-- Whether one candidate-term attempt of `collectAIExams` counts as found:
`err == nil && len(exams) > 0`. -/
def examsFound (r : Option (List ExamEvent)) : Bool :=
  match r with
  | some l => decide (0 < l.length)
  | none => false

/-- Embedding of the semester loop of `collectAIExams`
(src/features/ai-data-builder.go, lines 231-250), already in iteration
order. `attempt semID = none` models a `FetchReq`/goquery/`parseExamSchedule`
error; on exhaustion the Go code returns the empty slice with a `nil`
error. -/
def collectAIExamsRev (attempt : String → Option (List ExamEvent)) :
    List String → List ExamEvent
  | [] => []
  | semID :: rest =>
    match attempt semID with
    | some exams =>
      if 0 < exams.length then exams else collectAIExamsRev attempt rest
    | none => collectAIExamsRev attempt rest

/-- `collectAIExams` iterates `allSems` from the last index down to the
first (latest to oldest). -/
def collectAIExamsSearch (attempt : String → Option (List ExamEvent))
    (allSems : List String) : List ExamEvent :=
  collectAIExamsRev attempt allSems.reverse

/-! ## collectAIAttendance row extraction
(src/features/ai-data-builder.go, lines 185-209) -/

/-- Embedding of one row callback of `collectAIAttendance`: rows with fewer
than 8 cells or an empty/"Course Code" code cell are skipped; the numeric
cells are parsed defensively with `fmt.Sscanf`, leaving the record's zero
value on a cell that fails to parse, and the record is appended regardless. -/
def collectAIAttendanceRow (cells : List String) : Option AttendanceRecord :=
  if cells.length < 8 then none
  else
    let courseCode := trimS (cells.getD 1 "")
    if courseCode = "" ∨ courseCode = "Course Code" then none
    else some
      { courseCode := courseCode
        courseName := trimS (cells.getD 2 "")
        courseType := trimS (cells.getD 3 "")
        faculty := trimS (cells.getD 4 "")
        attended := goScanInt (trimS (cells.getD 5 ""))
        total := goScanInt (trimS (cells.getD 6 ""))
        percentage := goScanFloat (trimS (cells.getD 7 "")) }

/-- The attendance slice produced by `collectAIAttendance` from the table's
rows. -/
def collectAIAttendanceRows (rows : List (List String)) : List AttendanceRecord :=
  rows.filterMap collectAIAttendanceRow

/-! ## Attendance display extractor (`findAndSaveAttendance` and
`calculateAttendance`, attendance-calculator feature file) -/

/-- Submatch of `reSubjectName`, the regular expression `-\s*(.*?)\s*-`:
the (space-trimmed) text between the first and second dash, when the string
has at least two dashes. -/
def reSubjectNameMatch (s : String) : Option String :=
  match splitOnDashS s with
  | _ :: mid :: _ :: _ => some (trimS mid)
  | _ => none

/-- Match of `reSubjectType`, the regular expression `[^-]*$`, then
`strings.TrimSpace`: the trimmed suffix after the last dash (the whole
string when there is no dash). -/
def reSubjectTypeMatch (s : String) : String :=
  trimS (((splitOnDashS s).getLast?).getD "")

/-- Capitalise the first character of a word. -/
def capitalizeWord : List Char → List Char
  | [] => []
  | c :: rest => c.toUpper :: rest

/-- Model of `cases.Title(language.English)` on the already-lowercased,
space-separated faculty names this code feeds it: capitalise the first
letter of each space-separated word. -/
def titleCaseEnglish (s : String) : String :=
  String.mk (joinWithChar ' ' ((splitOnCharL ' ' s.data).map capitalizeWord))

/-- Model of `strings.ToLower`. -/
def lowerS (s : String) : String := String.mk (s.data.map Char.toLower)

/-- Faculty-name normalisation: when `^(.*?)\s*-\s*` matches (the string
contains a dash), the prefix before the first dash, right-trimmed, is
lowercased and title-cased; otherwise the raw text is kept. -/
def normalizeProff (p : String) : String :=
  match splitOnDashS p with
  | first :: _ :: _ => titleCaseEnglish (lowerS (trimRightS first))
  | _ => p

/-- The hard-coded attendance requirement literal `0.7401` of
`calculateAttendance`, read as the exact rational it denotes. This is the
value the claim's ratio characterisation is stated against; the `float64`
the running program actually stores is its correctly rounded double,
`targetAttendanceF64` below, which is strictly smaller. -/
def targetAttendance : ℚ := 7401 / 10000

/-- Exact-arithmetic reading of `calculateAttendance`'s numeric core, with
every `float64` operation replaced by the exact rational operation:
`false` with the `math.Ceil` value on the "attend x more" branch
(`attended` strictly below the needed attendance), `true` with the
`math.Floor` value on the "can miss" branch. The program's bit-exact
`float64` semantics of the same lines is `floatCalcCore` below; the two
differ at boundary inputs where double rounding flips the floor/ceil. -/
def calcCore (attended total : Int) : Bool × Int :=
  let neededAttendance : ℚ := targetAttendance * (total : ℚ)
  if (attended : ℚ) < neededAttendance then
    (false, ⌈(neededAttendance - (attended : ℚ)) / (1 - targetAttendance)⌉)
  else
    (true, ⌊((attended : ℚ) - neededAttendance) / targetAttendance⌋)

/-- Embedding of `calculateAttendance`: the numeric core (exact-arithmetic
reading) formatted with the source's colour strings (`classtype == 1` means
lab wording). Callers in this file use it as an opaque formatter of the
threshold call; the count itself is settled against `floatCalcCore`. -/
def calculateAttendance (attended total classtype : Int) : String :=
  match calcCore attended total with
  | (false, x) =>
    if classtype = 1 then "\x1b[31mAttend " ++ toString x ++ " more lab(s)\x1b[0m"
    else "\x1b[31mAttend " ++ toString x ++ " more class(es)\x1b[0m"
  | (true, m) =>
    if classtype = 1 then "\x1b[32mCan miss " ++ toString m ++ " lab(s)\x1b[0m"
    else "\x1b[32mCan miss " ++ toString m ++ " class(es)\x1b[0m"

/-- The five cell texts one row callback of `findAndSaveAttendance` reads
from the DOM (cells 2, 4, 5, 6 and 7 of the row). -/
structure AttendanceRowCells where
  subNameAndType : String := ""
  proff : String := ""
  attended : String := ""
  total : String := ""
  percent : String := ""
  deriving Repr, DecidableEq

/-- Embedding of one row callback of `findAndSaveAttendance` (lines 296-347
of the attendance-calculator feature file): name/type/faculty extraction via
the regular expressions, then `strconv.Atoi` of attended and total — on
either conversion failing the callback returns early and the row is dropped
(`none`); otherwise lab-typed rows halve both counts (Go integer division)
before `calculateAttendance`. -/
def findAndSaveRow (cells : AttendanceRowCells) : Option (List String) :=
  let sub_name := (reSubjectNameMatch cells.subNameAndType).getD ""
  let sub_type := reSubjectTypeMatch cells.subNameAndType
  let proff := normalizeProff cells.proff
  let classes_attended := cells.attended ++ "/" ++ cells.total
  match goAtoi cells.attended, goAtoi cells.total with
  | some attendedInt, some totalInt =>
    let missOrAttend :=
      if sub_type = "Lab Only" ∨ sub_type = "Embedded Lab" then
        calculateAttendance (Int.tdiv attendedInt 2) (Int.tdiv totalInt 2) 1
      else calculateAttendance attendedInt totalInt 0
    some [sub_name, sub_type, proff, classes_attended, cells.percent, missOrAttend]
  | _, _ => none

/-- The header row `findAndSaveAttendance` seeds its table with. -/
def attendanceHeader : List String :=
  ["Subject", "Type", "Faculty Name", "Classes Attended", "Percentage", "75% Alert"]

/-- Embedding of `findAndSaveAttendance` over the rows of a found attendance
table: header first, then the per-row results in order, dropped rows
omitted. -/
def findAndSaveAttendance (rows : List AttendanceRowCells) : List (List String) :=
  attendanceHeader :: rows.filterMap findAndSaveRow

/-! ## collectAICGPA (src/features/ai-data-builder.go, lines 343-367) -/

/-- Embedding of one row callback of the grade-history table walk: rows with
fewer than 3 cells or an empty/"Semester" label are skipped; otherwise the
snapshot is appended to the trend and, when its parsed cumulative value is
strictly greater than the running `currentCGPA`, both `currentCGPA` and
`semester` are updated. -/
def cgpaStep (acc : ℚ × List CGPASnapshot × String) (cells : List String) :
    ℚ × List CGPASnapshot × String :=
  if cells.length < 3 then acc
  else
    let sem := trimS (cells.getD 0 "")
    if sem = "" ∨ sem = "Semester" then acc
    else
      let snap : CGPASnapshot := { semester := sem, cgpa := goScanFloat (trimS (cells.getD 2 "")) }
      if acc.1 < snap.cgpa then (snap.cgpa, acc.2.1 ++ [snap], sem)
      else (acc.1, acc.2.1 ++ [snap], acc.2.2)

/-- The `(currentCGPA, trend, semester)` triple `collectAICGPA` computes from
the grade-history rows. -/
def collectAICGPARows (rows : List (List String)) : ℚ × List CGPASnapshot × String :=
  rows.foldl cgpaStep (0, [], "")

/-! ## Term-scoped request payload (Endpoint Adapter) -/

/-- Embedding of the `fmt.Sprintf` payload template shared verbatim by
`GetMarks`, `collectAIMarks`, `collectAIAttendance` and `collectAITimetable`:
the three `%s` slots receive the registration number, the resolved semester
id and the session's CSRF token. -/
def aiPayload (regNo semID csrf : String) : String :=
  "------WebKitFormBoundary9yjNZXu7BBjgQK7J\r\nContent-Disposition: form-data; name=\"authorizedID\"\r\n\r\n"
    ++ regNo
    ++ "\r\n------WebKitFormBoundary9yjNZXu7BBjgQK7J\r\nContent-Disposition: form-data; name=\"semesterSubId\"\r\n\r\n"
    ++ semID
    ++ "\r\n------WebKitFormBoundary9yjNZXu7BBjgQK7J\r\nContent-Disposition: form-data; name=\"_csrf\"\r\n\r\n"
    ++ csrf
    ++ "\r\n------WebKitFormBoundary9yjNZXu7BBjgQK7J--\r\n"

/-- Follows the spec's words (§4.3, §6): a multipart form body with a stable
boundary marker, one part per field in order (marker line, the
`Content-Disposition` header naming the field, blank line, value), closed by
the marker with the terminating `--`. Refinement target compared against the
source's payload template. -/
def multipartBody (marker : String) (fields : List (String × String)) : String :=
  fields.foldr
    (fun f acc =>
      marker ++ "\r\nContent-Disposition: form-data; name=\"" ++ f.1 ++ "\"\r\n\r\n"
        ++ f.2 ++ "\r\n" ++ acc)
    (marker ++ "--\r\n")

/-! ## Pacing/Cache Gate -/

/-- Single-slot cache of the Pacing/Cache Gate: the memoized document and
its fetch time, when one exists. -/
structure CacheState (Doc : Type) where
  cached : Option (Nat × Doc) := none
  deriving Repr, DecidableEq

/-- Modelled from the spec: the Pacing/Cache Gate lives in
`vtop_data_manager.py`, which is not among the provided sources (only the
repository documentation describes it: 30-minute cache, 2-second minimum
interval). Spec §4.6: `get(handle, maxAge)` returns the memoized document
while its age is below `maxAge`; otherwise it performs one aggregation pass
and memoizes the result (the minimum-interval pacing only delays that pass,
it does not add or remove passes, so it is not part of the state here).
The third component counts the upstream aggregation passes the call made. -/
def cacheGet {Doc : Type} (aggregate : Nat → Doc) (maxAge now : Nat)
    (st : CacheState Doc) : Doc × CacheState Doc × Nat :=
  match st.cached with
  | some (t, d) =>
    if now - t < maxAge then (d, st, 0)
    else
      let d2 := aggregate now
      (d2, ⟨some (now, d2)⟩, 1)
  | none =>
    let d2 := aggregate now
    (d2, ⟨some (now, d2)⟩, 1)

/-! ## Bit-exact float64 model

`calculateAttendance` computes with Go `float64` (IEEE-754 binary64), whose
every operation rounds the exact result to 53 significant bits, nearest,
ties to even. The model below represents a double as a scaled integer
`m * 2^e` (after rounding `|m| ≤ 2^53`) and implements that rounding
exactly, over pure integer arithmetic so that concrete runs evaluate in
the kernel. Exponent range is unbounded (no overflow/subnormals/NaN):
the magnitudes reachable from this function's integer inputs stay far
inside the normal double range, where this model and binary64 agree. -/

/-- Number of binary digits of `n` (0 for 0), by fuel-indexed recursion so
that concrete evaluation is structural; 256 bits of fuel covers every
intermediate value of the modelled computation. -/
def bitlenAux : Nat → Nat → Nat
  | 0, _ => 0
  | fuel + 1, n => if n = 0 then 0 else bitlenAux fuel (n / 2) + 1

/-- Number of binary digits of `n`. -/
def bitlen (n : Nat) : Nat := bitlenAux 256 n

/-- Round `n / 2^k` to the nearest integer, ties to even. -/
def roundSigNat (n k : Nat) : Nat :=
  if k = 0 then n
  else
    let q := n / 2 ^ k
    let r := n % 2 ^ k
    let half := 2 ^ (k - 1)
    if half < r then q + 1
    else if r < half then q
    else if q % 2 = 1 then q + 1 else q

/-- A binary64 value `m * 2^e` (value semantics: representations with the
same value are interchangeable; every arithmetic result below is rounded to
at most 53 significant bits, with a possible exact carry to `2^53`). -/
structure F64 where
  m : Int
  e : Int
  deriving Repr, DecidableEq

/-- Round `m * 2^e` to 53 significant bits, nearest, ties to even (exact
when `m` already fits). -/
def fnormalize (m : Int) (e : Int) : F64 :=
  if m = 0 then ⟨0, 0⟩
  else
    let n := m.natAbs
    let b := bitlen n
    if b ≤ 53 then ⟨m, e⟩
    else
      let k := b - 53
      ⟨m.sign * (roundSigNat n k : Int), e + k⟩

/-- binary64 multiplication: round the exact product. -/
def fmul (a b : F64) : F64 := fnormalize (a.m * b.m) (a.e + b.e)

/-- binary64 subtraction: align exponents, round the exact difference. -/
def fsub (a b : F64) : F64 :=
  let e := min a.e b.e
  fnormalize (a.m * (2 ^ (a.e - e).toNat : Nat) - b.m * (2 ^ (b.e - e).toNat : Nat)) e

/-- Scaled truncating division `(n1 * 2^s0) / n2` with remainder, the shift
applied to whichever side keeps everything in `Nat`. -/
def fdivScaled (n1 n2 : Nat) (s0 : Int) : Nat × Nat :=
  if 0 ≤ s0 then ((n1 * 2 ^ s0.toNat) / n2, (n1 * 2 ^ s0.toNat) % n2)
  else (n1 / (n2 * 2 ^ (-s0).toNat), n1 % (n2 * 2 ^ (-s0).toNat))

/-- binary64 division: scale the dividend so the quotient has 53 or 54
bits, shift down once in the latter case, then round by comparing twice the
remainder with the divisor, ties to even. Division by zero (never reached
on the modelled path) returns zero. -/
def fdiv (a b : F64) : F64 :=
  if a.m = 0 ∨ b.m = 0 then ⟨0, 0⟩
  else
    let sg : Int := if (0 ≤ a.m) = (0 ≤ b.m) then 1 else -1
    let n1 := a.m.natAbs
    let n2 := b.m.natAbs
    let s0 : Int := 53 + (bitlen n2 : Int) - (bitlen n1 : Int)
    let s1 : Int := if 2 ^ 53 ≤ (fdivScaled n1 n2 s0).1 then s0 - 1 else s0
    let qr := fdivScaled n1 n2 s1
    let den := if 0 ≤ s1 then n2 else n2 * 2 ^ (-s1).toNat
    let q :=
      if den < 2 * qr.2 then qr.1 + 1
      else if 2 * qr.2 < den then qr.1
      else if qr.1 % 2 = 1 then qr.1 + 1 else qr.1
    ⟨sg * (q : Int), a.e - b.e - s1⟩

/-- `math.Floor` of a double, followed by Go's exact `int(...)` conversion
of the integral result. -/
def ffloor (a : F64) : Int :=
  if 0 ≤ a.e then a.m * (2 ^ a.e.toNat : Nat)
  else Int.fdiv a.m (2 ^ (-a.e).toNat : Nat)

/-- `math.Ceil` of a double, followed by Go's exact `int(...)` conversion
of the integral result. -/
def fceil (a : F64) : Int :=
  if 0 ≤ a.e then a.m * (2 ^ a.e.toNat : Nat)
  else -(Int.fdiv (-a.m) (2 ^ (-a.e).toNat : Nat))

/-- binary64 comparison `a < b` (exact on the represented values, as IEEE
comparison is). -/
def flt (a b : F64) : Bool :=
  let e := min a.e b.e
  decide (a.m * (2 ^ (a.e - e).toNat : Nat) < b.m * (2 ^ (b.e - e).toNat : Nat))

/-- Go `float64(n)` for an `int` (rounds when `|n| ≥ 2^53`; exact below). -/
def intToF (n : Int) : F64 := fnormalize n 0

/-- The double the running program stores for the literal `0.7401`: the
correctly rounded quotient (both operands below `2^53`, hence exact), equal
to `0.740099999999999981…` and strictly below the decimal `0.7401`. -/
def targetAttendanceF64 : F64 := fdiv ⟨7401, 0⟩ ⟨10000, 0⟩

/-- Bit-exact `float64` semantics of `calculateAttendance`'s numeric core:
the same lines as `calcCore`, with every operation correctly rounded to
binary64. -/
def floatCalcCore (attended total : Int) : Bool × Int :=
  let t := targetAttendanceF64
  let neededAttendance := fmul t (intToF total)
  if flt (intToF attended) neededAttendance then
    (false, fceil (fdiv (fsub neededAttendance (intToF attended)) (fsub (intToF 1) t)))
  else
    (true, ffloor (fdiv (fsub (intToF attended) neededAttendance) t))

/-! ## Theorems -/

/-- Helper: full characterisation of `buildAIDataCore` — each slice is the
collector's value or the zero value, and the error slice is the
concatenation of the per-kind diagnostic entries in collection order. -/
theorem buildAIDataCore_char (regNo : String) (now : Nat)
    (mR : Except String (List CourseMarksSummary))
    (aR : Except String (List AttendanceRecord))
    (eR : Except String (List ExamEvent))
    (tR : Except String (List TimetableEntry))
    (cR : Except String (ℚ × List CGPASnapshot × String)) :
    buildAIDataCore regNo now mR aR eR tR cR =
      ({ regNo := regNo
         generatedAt := now
         marks := valueOr mR []
         attendance := valueOr aR []
         exams := valueOr eR []
         timetable := valueOr tR []
         cgpa := (valueOr cR (0, [], "")).1
         cgpaTrend := (valueOr cR (0, [], "")).2.1
         semester := (valueOr cR (0, [], "")).2.2 },
       kindError "marks" mR ++ kindError "attendance" aR ++ kindError "exams" eR
         ++ kindError "timetable" tR ++ kindError "cgpa" cR) := by
  rcases mR with e₁ | m <;> rcases aR with e₂ | a <;> rcases eR with e₃ | x <;>
    rcases tR with e₄ | tb <;> rcases cR with e₅ | ⟨c, tr, sm⟩ <;>
      simp [buildAIDataCore, valueOr, kindError]

/-- C1: a failure while collecting one record kind never aborts collection of
the remaining kinds — every successfully collected slice appears in the
returned document unchanged (each slice depends only on its own collector's
outcome), and the accompanying error is `none` when nothing failed,
otherwise the join of all per-kind failure reasons, attached alongside the
document rather than replacing it. -/
theorem buildAIData_partial_failure_tolerant (regNo : String) (now : Nat)
    (mR : Except String (List CourseMarksSummary))
    (aR : Except String (List AttendanceRecord))
    (eR : Except String (List ExamEvent))
    (tR : Except String (List TimetableEntry))
    (cR : Except String (ℚ × List CGPASnapshot × String)) :
    (buildAIData regNo now mR aR eR tR cR).1.marks = valueOr mR [] ∧
    (buildAIData regNo now mR aR eR tR cR).1.attendance = valueOr aR [] ∧
    (buildAIData regNo now mR aR eR tR cR).1.exams = valueOr eR [] ∧
    (buildAIData regNo now mR aR eR tR cR).1.timetable = valueOr tR [] ∧
    (buildAIData regNo now mR aR eR tR cR).1.cgpa = (valueOr cR (0, [], "")).1 ∧
    (buildAIData regNo now mR aR eR tR cR).1.cgpaTrend = (valueOr cR (0, [], "")).2.1 ∧
    (buildAIData regNo now mR aR eR tR cR).1.semester = (valueOr cR (0, [], "")).2.2 ∧
    (buildAIData regNo now mR aR eR tR cR).2 =
      (if (kindError "marks" mR ++ kindError "attendance" aR ++ kindError "exams" eR
            ++ kindError "timetable" tR ++ kindError "cgpa" cR) = [] then none
       else some ("partial data collection errors: "
         ++ joinSep "; " (kindError "marks" mR ++ kindError "attendance" aR
             ++ kindError "exams" eR ++ kindError "timetable" tR ++ kindError "cgpa" cR))) := by
  have h := buildAIDataCore_char regNo now mR aR eR tR cR
  simp only [buildAIData, h]
  split <;> simp_all

/-- C10: the aggregator always returns a document value carrying the
requested registration number and the run's timestamp, whatever the five
collector outcomes are (including all of them failing, e.g. on an invalid
session); errors only ever accompany the document in the second component. -/
theorem buildAIData_always_returns_document (regNo : String) (now : Nat)
    (mR : Except String (List CourseMarksSummary))
    (aR : Except String (List AttendanceRecord))
    (eR : Except String (List ExamEvent))
    (tR : Except String (List TimetableEntry))
    (cR : Except String (ℚ × List CGPASnapshot × String)) :
    (buildAIData regNo now mR aR eR tR cR).1.regNo = regNo ∧
    (buildAIData regNo now mR aR eR tR cR).1.generatedAt = now := by
  have h := buildAIDataCore_char regNo now mR aR eR tR cR
  simp only [buildAIData, h]
  split <;> simp_all

/-- Helper: the attendance semester loop passes over every candidate without
data (fetch/parse error, or a table with no row beyond the header). -/
theorem getAttendanceSearchRev_skip (attempt : String → Option (List (List String)))
    (N rest : List String) (h : ∀ s ∈ N, attendanceFound (attempt s) = false) :
    getAttendanceSearchRev attempt (N ++ rest) = getAttendanceSearchRev attempt rest := by
  induction N with
  | nil => rfl
  | cons s N ih =>
    have hs := h s (List.mem_cons_self s N)
    have hrest : ∀ x ∈ N, attendanceFound (attempt x) = false :=
      fun x hx => h x (List.mem_cons_of_mem s hx)
    rw [List.cons_append]
    cases hatt : attempt s with
    | none =>
      simp only [getAttendanceSearchRev, hatt]
      exact ih hrest
    | some l =>
      have hlen : ¬ 1 < l.length := by
        simpa [attendanceFound, hatt] using hs
      simp only [getAttendanceSearchRev, hatt, if_neg hlen]
      exact ih hrest

/-- Helper: the exam semester loop passes over every candidate without data. -/
theorem collectAIExamsRev_skip (attempt : String → Option (List ExamEvent))
    (N rest : List String) (h : ∀ s ∈ N, examsFound (attempt s) = false) :
    collectAIExamsRev attempt (N ++ rest) = collectAIExamsRev attempt rest := by
  induction N with
  | nil => rfl
  | cons s N ih =>
    have hs := h s (List.mem_cons_self s N)
    have hrest : ∀ x ∈ N, examsFound (attempt x) = false :=
      fun x hx => h x (List.mem_cons_of_mem s hx)
    rw [List.cons_append]
    cases hatt : attempt s with
    | none =>
      simp only [collectAIExamsRev, hatt]
      exact ih hrest
    | some l =>
      have hlen : ¬ 0 < l.length := by
        simpa [examsFound, hatt] using hs
      simp only [collectAIExamsRev, hatt, if_neg hlen]
      exact ih hrest

/-- C2: with the stored semester list ordered oldest-first, both per-kind
fallback loops (`GetAttendance` and `collectAIExams`) try candidates newest
to oldest and stop at the first candidate with at least one data row: if
every semester newer than `sA` (resp. `sE`) has no data and `sA` (resp.
`sE`) does, the result is exactly that semester's rows — in particular, when
only the oldest candidate has rows (`olderA = []`), the result is the oldest
term's rows. -/
theorem fallback_newest_first_stops_at_first_data
    (attA : String → Option (List (List String)))
    (attE : String → Option (List ExamEvent))
    (olderA newerA olderE newerE : List String) (sA sE : String)
    (rowsA : List (List String)) (examsE : List ExamEvent)
    (hA0 : ∀ s ∈ newerA, attendanceFound (attA s) = false)
    (hA1 : attA sA = some rowsA) (hA2 : 1 < rowsA.length)
    (hE0 : ∀ s ∈ newerE, examsFound (attE s) = false)
    (hE1 : attE sE = some examsE) (hE2 : examsE ≠ []) :
    getAttendanceSearch attA (olderA ++ sA :: newerA) = some (sA, rowsA) ∧
    collectAIExamsSearch attE (olderE ++ sE :: newerE) = examsE := by
  constructor
  · unfold getAttendanceSearch
    rw [show (olderA ++ sA :: newerA).reverse = newerA.reverse ++ sA :: olderA.reverse by simp]
    rw [getAttendanceSearchRev_skip attA newerA.reverse (sA :: olderA.reverse)
      (fun x hx => hA0 x (List.mem_reverse.mp hx))]
    simp only [getAttendanceSearchRev, hA1, if_pos hA2]
  · unfold collectAIExamsSearch
    rw [show (olderE ++ sE :: newerE).reverse = newerE.reverse ++ sE :: olderE.reverse by simp]
    rw [collectAIExamsRev_skip attE newerE.reverse (sE :: olderE.reverse)
      (fun x hx => hE0 x (List.mem_reverse.mp hx))]
    have hlen : 0 < examsE.length := List.length_pos.mpr hE2
    simp only [collectAIExamsRev, hE1, if_pos hlen]

/-- Witness for C2: candidates `[T1, T2, T3]` (oldest-first, so tried
`T3, T2, T1`) where only the oldest `T1` has attendance rows beyond the
header: the attendance result is `T1`'s table; likewise exams `[E1, E2]`
where only `E1` has events. -/
theorem fallback_newest_first_stops_at_first_data_witness :
    attendanceFound ((fun s => if s = "T1"
      then some [["h"], ["CSE1001", "DSA"]] else some [["h"]]) "T2") = false ∧
    attendanceFound ((fun s => if s = "T1"
      then some [["h"], ["CSE1001", "DSA"]] else some [["h"]]) "T3") = false ∧
    examsFound ((fun s => if s = "E1"
      then some [{ courseCode := "CSE1001", title := "FAT" }]
      else some ([] : List ExamEvent)) "E2") = false ∧
    getAttendanceSearch
      (fun s => if s = "T1" then some [["h"], ["CSE1001", "DSA"]] else some [["h"]])
      ["T1", "T2", "T3"] = some ("T1", [["h"], ["CSE1001", "DSA"]]) ∧
    collectAIExamsSearch
      (fun s => if s = "E1" then some [{ courseCode := "CSE1001", title := "FAT" }]
        else some ([] : List ExamEvent))
      ["E1", "E2"] = [{ courseCode := "CSE1001", title := "FAT" }] := by
  refine ⟨by decide, by decide, by decide, ?_, ?_⟩
  · exact (fallback_newest_first_stops_at_first_data
      (fun s => if s = "T1" then some [["h"], ["CSE1001", "DSA"]] else some [["h"]])
      (fun s => if s = "E1" then some [{ courseCode := "CSE1001", title := "FAT" }]
        else some ([] : List ExamEvent))
      [] ["T2", "T3"] [] ["E2"] "T1" "E1" [["h"], ["CSE1001", "DSA"]]
      [{ courseCode := "CSE1001", title := "FAT" }]
      (by decide) (by decide) (by decide) (by decide) (by decide) (by decide)).1
  · exact (fallback_newest_first_stops_at_first_data
      (fun s => if s = "T1" then some [["h"], ["CSE1001", "DSA"]] else some [["h"]])
      (fun s => if s = "E1" then some [{ courseCode := "CSE1001", title := "FAT" }]
        else some ([] : List ExamEvent))
      [] ["T2", "T3"] [] ["E2"] "T1" "E1" [["h"], ["CSE1001", "DSA"]]
      [{ courseCode := "CSE1001", title := "FAT" }]
      (by decide) (by decide) (by decide) (by decide) (by decide) (by decide)).2

/-- C3 counterexample: a run with a valid session in which every exam
candidate term is exhausted without rows returns an Export Document whose
exams slice is empty while the accompanying error/diagnostic is `none` —
an empty slice with no corresponding diagnostic entry, contradicting the
claim that an empty slice is never returned without one. -/
theorem empty_exams_without_diagnostic :
    collectAIExamsSearch (fun _ => some []) ["T1"] = [] ∧
    (buildAIData "22BCE1234" 0 (.ok []) (.ok [])
      (.ok (collectAIExamsSearch (fun _ => some []) ["T1"])) (.ok [])
      (.ok (0, [], ""))).1.exams = [] ∧
    (buildAIData "22BCE1234" 0 (.ok []) (.ok [])
      (.ok (collectAIExamsSearch (fun _ => some []) ["T1"])) (.ok [])
      (.ok (0, [], ""))).2 = none :=
  ⟨rfl, rfl, rfl⟩

/-- C3 amended: each per-kind slice of the returned document is either
populated from its collector's successful result or left as the empty zero
value, and a diagnostic entry is appended for a kind exactly when that
kind's collector returned an error — a kind whose candidate terms are all
exhausted without rows (exams) succeeds with an empty slice and therefore
contributes no diagnostic; the aggregation is never aborted. -/
theorem slice_empty_or_populated_diagnostic_on_error (regNo : String) (now : Nat)
    (mR : Except String (List CourseMarksSummary))
    (aR : Except String (List AttendanceRecord))
    (eR : Except String (List ExamEvent))
    (tR : Except String (List TimetableEntry))
    (cR : Except String (ℚ × List CGPASnapshot × String)) :
    (buildAIData regNo now mR aR eR tR cR).1.exams = valueOr eR [] ∧
    (buildAIDataCore regNo now mR aR eR tR cR).2 =
      kindError "marks" mR ++ kindError "attendance" aR ++ kindError "exams" eR
        ++ kindError "timetable" tR ++ kindError "cgpa" cR ∧
    (∀ attempt : String → Option (List ExamEvent), ∀ sems : List String,
      (∀ s ∈ sems, examsFound (attempt s) = false) →
        collectAIExamsSearch attempt sems = []) := by
  refine ⟨?_, ?_, ?_⟩
  · have h := buildAIDataCore_char regNo now mR aR eR tR cR
    simp only [buildAIData, h]
    split <;> simp_all
  · exact congrArg Prod.snd (buildAIDataCore_char regNo now mR aR eR tR cR)
  · intro attempt sems hall
    unfold collectAIExamsSearch
    have hskip := collectAIExamsRev_skip attempt sems.reverse []
      (fun x hx => hall x (List.mem_reverse.mp hx))
    simpa using hskip

/-- Witness for the amended C3: marks fail with "invalid login", exams
succeed with zero rows after exhausting the single candidate `T1` — the
exams slice is empty, the diagnostics list contains exactly the marks entry
and no exams entry. -/
theorem slice_empty_or_populated_diagnostic_on_error_witness :
    (buildAIData "22BCE1234" 0 (.error "invalid login") (.ok [])
      (.ok []) (.ok []) (.ok (0, [], ""))).1.exams = [] ∧
    (buildAIDataCore "22BCE1234" 0 (.error "invalid login") (.ok [])
      (.ok []) (.ok []) (.ok (0, [], ""))).2 = ["marks: invalid login"] ∧
    collectAIExamsSearch (fun _ => some []) ["T1"] = [] := by
  refine ⟨?_, ?_, ?_⟩
  · exact (slice_empty_or_populated_diagnostic_on_error "22BCE1234" 0
      (.error "invalid login") (.ok []) (.ok []) (.ok []) (.ok (0, [], ""))).1
  · exact (slice_empty_or_populated_diagnostic_on_error "22BCE1234" 0
      (.error "invalid login") (.ok []) (.ok []) (.ok []) (.ok (0, [], ""))).2.1
  · exact (slice_empty_or_populated_diagnostic_on_error "22BCE1234" 0
      (.error "invalid login") (.ok []) (.ok []) (.ok []) (.ok (0, [], ""))).2.2
      (fun _ => some []) ["T1"] (by decide)

/-- C4: in `findAndSaveAttendance`, a row whose extracted course type is a
lab type ("Lab Only" or "Embedded Lab") drives the threshold computation
with the halved counts (Go integer division by 2) and the lab class type,
while any other course type uses the raw counts: the produced row's alert
column is `calculateAttendance (a/2) (t/2) 1` for lab rows and
`calculateAttendance a t 0` otherwise. -/
theorem findAndSaveRow_lab_halves_counts (cells : AttendanceRowCells) (a t : Int)
    (ha : goAtoi cells.attended = some a) (ht : goAtoi cells.total = some t) :
    (reSubjectTypeMatch cells.subNameAndType = "Lab Only" ∨
        reSubjectTypeMatch cells.subNameAndType = "Embedded Lab" →
      findAndSaveRow cells = some
        [(reSubjectNameMatch cells.subNameAndType).getD "",
         reSubjectTypeMatch cells.subNameAndType,
         normalizeProff cells.proff,
         cells.attended ++ "/" ++ cells.total,
         cells.percent,
         calculateAttendance (Int.tdiv a 2) (Int.tdiv t 2) 1]) ∧
    (¬ (reSubjectTypeMatch cells.subNameAndType = "Lab Only" ∨
        reSubjectTypeMatch cells.subNameAndType = "Embedded Lab") →
      findAndSaveRow cells = some
        [(reSubjectNameMatch cells.subNameAndType).getD "",
         reSubjectTypeMatch cells.subNameAndType,
         normalizeProff cells.proff,
         cells.attended ++ "/" ++ cells.total,
         cells.percent,
         calculateAttendance a t 0]) := by
  constructor
  · intro hty
    simp only [findAndSaveRow, ha, ht]
    rw [if_pos hty]
  · intro hty
    simp only [findAndSaveRow, ha, ht]
    rw [if_neg hty]

/-- Witness for C4: a "Lab Only" row reporting attended=20, total=40 is
emitted with the alert computed from the halved 10/20 (and the name, type
and faculty columns extracted by the regular-expression models). -/
theorem findAndSaveRow_lab_halves_counts_witness :
    goAtoi "20" = some 20 ∧ goAtoi "40" = some 40 ∧
    reSubjectTypeMatch "CSE1001 - Data Structures Lab - Lab Only" = "Lab Only" ∧
    Int.tdiv 20 2 = 10 ∧ Int.tdiv 40 2 = 20 ∧
    findAndSaveRow
      { subNameAndType := "CSE1001 - Data Structures Lab - Lab Only"
        proff := "JOHN SMITH - SCOPE"
        attended := "20"
        total := "40"
        percent := "50%" } =
      some ["Data Structures Lab", "Lab Only", "John Smith", "20/40", "50%",
        calculateAttendance 10 20 1] := by
  refine ⟨by decide, by decide, by decide, by decide, by decide, ?_⟩
  exact (findAndSaveRow_lab_halves_counts
    { subNameAndType := "CSE1001 - Data Structures Lab - Lab Only"
      proff := "JOHN SMITH - SCOPE"
      attended := "20"
      total := "40"
      percent := "50%" } 20 40 (by decide) (by decide)).1 (Or.inl (by decide))

/-- C5 counterexample: the bit-exact `float64` semantics of the source's
threshold arithmetic, at attended=7401, total=9999, takes the "can miss"
branch and reports 0 — yet missing one more class still meets the
hard-coded requirement exactly (`0.7401 * (9999 + 1) ≤ 7401`, with
equality), so the program does not return the largest integer `m` with
`attended/(total+m) ≥ t`: the rounded quotient
`(7401 ⊖ (0.7401 ⊗ 9999)) ⊘ 0.7401 = 0.99999999999997835…` floors to 0
where exact arithmetic yields exactly 1. -/
theorem calculateAttendance_float_rounding_counterexample :
    floatCalcCore 7401 9999 = (true, 0) ∧
    targetAttendance * ((9999 : ℚ) + ((1 : Int) : ℚ)) ≤ ((7401 : Int) : ℚ) ∧
    ¬ ((1 : Int) ≤ (0 : Int)) := by
  refine ⟨by decide, by norm_num [targetAttendance], by decide⟩

/-- C5 amended: `calculateAttendance` uses the one hard-coded requirement
percentage (the literal `0.7401`) for every course type (the class-type
argument only selects wording), and its two formulas, evaluated in exact
arithmetic on that constant, return exactly the claim's characterisation,
stated multiplicatively: on the "can miss" branch (taken iff
`targetAttendance * total ≤ attended`) the reported count is the largest
integer `m` with `targetAttendance * (total + m) ≤ attended`; on the
"attend more" branch it is the smallest integer `x` with
`targetAttendance * (total + x) ≤ attended + x`. The program evaluates
these formulas in `float64`, whose rounding can shift the returned count
off that optimum at boundary inputs (the counterexample above). -/
theorem calculateAttendance_threshold_characterisation (a t : Int)
    (ha : 0 ≤ a) (ht : 0 ≤ t) :
    targetAttendance = 7401 / 10000 ∧
    ((calcCore a t).1 = true ↔ targetAttendance * (t : ℚ) ≤ (a : ℚ)) ∧
    ((calcCore a t).1 = true →
      targetAttendance * ((t : ℚ) + ((calcCore a t).2 : ℚ)) ≤ (a : ℚ) ∧
      ∀ m : Int, targetAttendance * ((t : ℚ) + (m : ℚ)) ≤ (a : ℚ) →
        m ≤ (calcCore a t).2) ∧
    ((calcCore a t).1 = false →
      targetAttendance * ((t : ℚ) + ((calcCore a t).2 : ℚ)) ≤ (a : ℚ) + ((calcCore a t).2 : ℚ) ∧
      ∀ x : Int, targetAttendance * ((t : ℚ) + (x : ℚ)) ≤ (a : ℚ) + (x : ℚ) →
        (calcCore a t).2 ≤ x) := by
  have hτpos : (0 : ℚ) < targetAttendance := by norm_num [targetAttendance]
  have h1τ : (0 : ℚ) < 1 - targetAttendance := by norm_num [targetAttendance]
  by_cases h : (a : ℚ) < targetAttendance * (t : ℚ)
  · have hc : calcCore a t =
        (false, ⌈(targetAttendance * (t : ℚ) - (a : ℚ)) / (1 - targetAttendance)⌉) := by
      simp only [calcCore, if_pos h]
    refine ⟨rfl, ?_, ?_, ?_⟩
    · rw [hc]
      exact iff_of_false (by simp) (not_le.mpr h)
    · intro htrue
      rw [hc] at htrue
      simp at htrue
    · intro _
      rw [hc]
      constructor
      · have hceil : (targetAttendance * (t : ℚ) - (a : ℚ)) / (1 - targetAttendance) ≤
            ((⌈(targetAttendance * (t : ℚ) - (a : ℚ)) / (1 - targetAttendance)⌉ : ℤ) : ℚ) :=
          Int.le_ceil _
        have hmul : targetAttendance * (t : ℚ) - (a : ℚ) ≤
            ((⌈(targetAttendance * (t : ℚ) - (a : ℚ)) / (1 - targetAttendance)⌉ : ℤ) : ℚ)
              * (1 - targetAttendance) := by
          rwa [div_le_iff₀ h1τ] at hceil
        have hexp := mul_add targetAttendance (t : ℚ)
          ((⌈(targetAttendance * (t : ℚ) - (a : ℚ)) / (1 - targetAttendance)⌉ : ℤ) : ℚ)
        have hring : ((⌈(targetAttendance * (t : ℚ) - (a : ℚ)) / (1 - targetAttendance)⌉ : ℤ) : ℚ)
            * (1 - targetAttendance) =
              ((⌈(targetAttendance * (t : ℚ) - (a : ℚ)) / (1 - targetAttendance)⌉ : ℤ) : ℚ)
                - targetAttendance *
                  ((⌈(targetAttendance * (t : ℚ) - (a : ℚ)) / (1 - targetAttendance)⌉ : ℤ) : ℚ) := by
          ring
        linarith
      · intro x' hx'
        have hexp := mul_add targetAttendance (t : ℚ) (x' : ℚ)
        have hring : (x' : ℚ) * (1 - targetAttendance) =
            (x' : ℚ) - targetAttendance * (x' : ℚ) := by ring
        have hnum : targetAttendance * (t : ℚ) - (a : ℚ) ≤ (x' : ℚ) * (1 - targetAttendance) := by
          linarith
        have hdiv : (targetAttendance * (t : ℚ) - (a : ℚ)) / (1 - targetAttendance) ≤ (x' : ℚ) :=
          (div_le_iff₀ h1τ).mpr hnum
        exact Int.ceil_le.mpr hdiv
  · have hle : targetAttendance * (t : ℚ) ≤ (a : ℚ) := not_lt.mp h
    have hc : calcCore a t =
        (true, ⌊((a : ℚ) - targetAttendance * (t : ℚ)) / targetAttendance⌋) := by
      simp only [calcCore, if_neg h]
    refine ⟨rfl, ?_, ?_, ?_⟩
    · rw [hc]
      exact iff_of_true rfl hle
    · intro _
      rw [hc]
      constructor
      · have hfl : ((⌊((a : ℚ) - targetAttendance * (t : ℚ)) / targetAttendance⌋ : ℤ) : ℚ) ≤
            ((a : ℚ) - targetAttendance * (t : ℚ)) / targetAttendance :=
          Int.floor_le _
        have hmul : ((⌊((a : ℚ) - targetAttendance * (t : ℚ)) / targetAttendance⌋ : ℤ) : ℚ)
            * targetAttendance ≤ (a : ℚ) - targetAttendance * (t : ℚ) := by
          rwa [le_div_iff₀ hτpos] at hfl
        have hexp := mul_add targetAttendance (t : ℚ)
          ((⌊((a : ℚ) - targetAttendance * (t : ℚ)) / targetAttendance⌋ : ℤ) : ℚ)
        have hring : ((⌊((a : ℚ) - targetAttendance * (t : ℚ)) / targetAttendance⌋ : ℤ) : ℚ)
            * targetAttendance = targetAttendance *
              ((⌊((a : ℚ) - targetAttendance * (t : ℚ)) / targetAttendance⌋ : ℤ) : ℚ) := by
          ring
        linarith
      · intro m' hm'
        have hexp := mul_add targetAttendance (t : ℚ) (m' : ℚ)
        have hring : (m' : ℚ) * targetAttendance = targetAttendance * (m' : ℚ) := by ring
        have hnum : (m' : ℚ) * targetAttendance ≤ (a : ℚ) - targetAttendance * (t : ℚ) := by
          linarith
        have hdiv : (m' : ℚ) ≤ ((a : ℚ) - targetAttendance * (t : ℚ)) / targetAttendance :=
          (le_div_iff₀ hτpos).mpr hnum
        exact Int.le_floor.mpr hdiv
    · intro hfalse
      rw [hc] at hfalse
      simp at hfalse

/-- Witness for C5: the characterisation instantiated at attended=10,
total=20 (a student below the requirement). -/
theorem calculateAttendance_threshold_characterisation_witness :
    (0 : Int) ≤ 10 ∧ (0 : Int) ≤ 20 ∧
    (targetAttendance = 7401 / 10000 ∧
    ((calcCore 10 20).1 = true ↔ targetAttendance * ((20 : Int) : ℚ) ≤ ((10 : Int) : ℚ)) ∧
    ((calcCore 10 20).1 = true →
      targetAttendance * (((20 : Int) : ℚ) + ((calcCore 10 20).2 : ℚ)) ≤ ((10 : Int) : ℚ) ∧
      ∀ m : Int, targetAttendance * (((20 : Int) : ℚ) + (m : ℚ)) ≤ ((10 : Int) : ℚ) →
        m ≤ (calcCore 10 20).2) ∧
    ((calcCore 10 20).1 = false →
      targetAttendance * (((20 : Int) : ℚ) + ((calcCore 10 20).2 : ℚ)) ≤
        ((10 : Int) : ℚ) + ((calcCore 10 20).2 : ℚ) ∧
      ∀ x : Int, targetAttendance * (((20 : Int) : ℚ) + (x : ℚ)) ≤
          ((10 : Int) : ℚ) + (x : ℚ) →
        (calcCore 10 20).2 ≤ x)) :=
  ⟨by decide, by decide,
    calculateAttendance_threshold_characterisation 10 20 (by decide) (by decide)⟩

/-- C6 counterexample: a table with one row whose attended cell reads "N/A"
(one unparseable column) produces only the header — `findAndSaveAttendance`
discards the whole row, contradicting the claim that a row is never
discarded because one column failed to parse. -/
theorem row_dropped_on_unparseable_count :
    goAtoi "N/A" = none ∧
    findAndSaveAttendance
      [{ subNameAndType := "CSE1001 - Data Structures - Theory Only"
         proff := "JOHN SMITH - SCOPE"
         attended := "N/A"
         total := "40"
         percent := "0%" }] = [attendanceHeader] :=
  ⟨rfl, rfl⟩

/-- C6 amended: the two attendance extractors differ. In
`collectAIAttendance` a numeric column that fails to parse is recorded as
the zero value on that record and the row is still produced; in
`findAndSaveAttendance` a row whose attended or total column fails integer
parsing is dropped entirely (while its other malformed text columns would
only yield empty values). -/
theorem cell_failure_zero_value_vs_row_drop (cells : List String)
    (raw : AttendanceRowCells)
    (h8 : ¬ cells.length < 8)
    (hcode : ¬ (trimS (cells.getD 1 "") = "" ∨ trimS (cells.getD 1 "") = "Course Code"))
    (hbad : goAtoi raw.attended = none ∨ goAtoi raw.total = none) :
    collectAIAttendanceRow cells = some
      { courseCode := trimS (cells.getD 1 "")
        courseName := trimS (cells.getD 2 "")
        courseType := trimS (cells.getD 3 "")
        faculty := trimS (cells.getD 4 "")
        attended := goScanInt (trimS (cells.getD 5 ""))
        total := goScanInt (trimS (cells.getD 6 ""))
        percentage := goScanFloat (trimS (cells.getD 7 "")) } ∧
    findAndSaveRow raw = none := by
  constructor
  · simp only [collectAIAttendanceRow, if_neg h8, if_neg hcode]
  · rcases hbad with hb | hb
    · cases hy : goAtoi raw.total <;> simp [findAndSaveRow, hb, hy]
    · cases hy : goAtoi raw.attended <;> simp [findAndSaveRow, hb, hy]

/-- Witness for the amended C6: an 8-cell row whose attended and percentage
cells are unparseable is still emitted by `collectAIAttendance` with zero
values there, while `findAndSaveAttendance` drops a row whose attended cell
is unparseable. -/
theorem cell_failure_zero_value_vs_row_drop_witness :
    collectAIAttendanceRow
      ["1", "CSE1001", "Data Structures", "Theory Only", "SMITH", "N/A", "40", "abc"] =
      some { courseCode := "CSE1001"
             courseName := "Data Structures"
             courseType := "Theory Only"
             faculty := "SMITH"
             attended := 0
             total := 40
             percentage := 0 } ∧
    findAndSaveRow
      { subNameAndType := "CSE1001 - Algorithms - Theory Only"
        proff := "X - Y"
        attended := "n/a"
        total := "40"
        percent := "0%" } = none := by
  have h := cell_failure_zero_value_vs_row_drop
    ["1", "CSE1001", "Data Structures", "Theory Only", "SMITH", "N/A", "40", "abc"]
    { subNameAndType := "CSE1001 - Algorithms - Theory Only"
      proff := "X - Y"
      attended := "n/a"
      total := "40"
      percent := "0%" }
    (by decide) (by decide) (Or.inl (by decide))
  exact ⟨h.1, h.2⟩

/-- C7: on a grade-history trend whose cumulative value decreases, the code
reports the maximum snapshot, not the most recent (last-in-order) one: for
rows Fall (cumulative 9) then Winter (cumulative 8), `collectAICGPA`
returns current CGPA 9 and term label "Fall Semester 2024-25", while the
most recent snapshot of the returned trend is the Winter one with
cumulative 8 — the comment above the update ("Keep track of latest
semester and CGPA") describes the claimed behaviour, the `>` update
implements a maximum. -/
theorem collectAICGPA_reports_max_not_latest :
    collectAICGPARows
      [["Fall Semester 2024-25", "8.50", "9"], ["Winter Semester 2024-25", "7.90", "8"]] =
      (9, [{ semester := "Fall Semester 2024-25", cgpa := 9 },
           { semester := "Winter Semester 2024-25", cgpa := 8 }], "Fall Semester 2024-25") ∧
    (9 : ℚ) ≠ 8 ∧ "Fall Semester 2024-25" ≠ "Winter Semester 2024-25" := by
  have h9 : goScanFloat (trimS "9") = 9 := by
    show goScanFloatCore ['9'] 1 = 9
    show (1 : ℚ) * ((natOfDigits ['9'] : ℚ) +
      (natOfDigits [] : ℚ) / (10 : ℚ) ^ ([] : List Char).length) = 9
    norm_num [natOfDigits, (by decide : '9'.toNat - '0'.toNat = 9)]
  have h8 : goScanFloat (trimS "8") = 8 := by
    show goScanFloatCore ['8'] 1 = 8
    show (1 : ℚ) * ((natOfDigits ['8'] : ℚ) +
      (natOfDigits [] : ℚ) / (10 : ℚ) ^ ([] : List Char).length) = 8
    norm_num [natOfDigits, (by decide : '8'.toNat - '0'.toNat = 8)]
  have e1 : cgpaStep (0, [], "") ["Fall Semester 2024-25", "8.50", "9"] =
      if (0 : ℚ) < goScanFloat (trimS "9")
      then (goScanFloat (trimS "9"),
        [{ semester := "Fall Semester 2024-25", cgpa := goScanFloat (trimS "9") }],
        "Fall Semester 2024-25")
      else (0,
        [{ semester := "Fall Semester 2024-25", cgpa := goScanFloat (trimS "9") }],
        "") := rfl
  rw [h9] at e1
  rw [if_pos (by norm_num : (0 : ℚ) < 9)] at e1
  have e2 : cgpaStep (9, [{ semester := "Fall Semester 2024-25", cgpa := 9 }],
      "Fall Semester 2024-25") ["Winter Semester 2024-25", "7.90", "8"] =
      if (9 : ℚ) < goScanFloat (trimS "8")
      then (goScanFloat (trimS "8"),
        [{ semester := "Fall Semester 2024-25", cgpa := 9 },
         { semester := "Winter Semester 2024-25", cgpa := goScanFloat (trimS "8") }],
        "Winter Semester 2024-25")
      else (9,
        [{ semester := "Fall Semester 2024-25", cgpa := 9 },
         { semester := "Winter Semester 2024-25", cgpa := goScanFloat (trimS "8") }],
        "Fall Semester 2024-25") := rfl
  rw [h8] at e2
  rw [if_neg (by norm_num : ¬ (9 : ℚ) < 8)] at e2
  refine ⟨?_, by norm_num, by decide⟩
  show cgpaStep (cgpaStep (0, [], "") ["Fall Semester 2024-25", "8.50", "9"])
    ["Winter Semester 2024-25", "7.90", "8"] =
    (9, [{ semester := "Fall Semester 2024-25", cgpa := 9 },
         { semester := "Winter Semester 2024-25", cgpa := 8 }], "Fall Semester 2024-25")
  rw [e1, e2]

/-- C8: with the single-slot gate, a cold call performs one aggregation pass
and memoizes; a second call within the freshness window returns the
identical memoized document with zero upstream passes; a call whose age is
at or past the window performs exactly one upstream pass and re-memoizes. -/
theorem cacheGet_idempotent_within_window {Doc : Type} (aggregate : Nat → Doc)
    (maxAge t0 t1 t2 : Nat)
    (hfresh : t1 - t0 < maxAge) (hstale : ¬ t2 - t0 < maxAge) :
    cacheGet aggregate maxAge t0 ⟨none⟩ = (aggregate t0, ⟨some (t0, aggregate t0)⟩, 1) ∧
    cacheGet aggregate maxAge t1 ⟨some (t0, aggregate t0)⟩ =
      (aggregate t0, ⟨some (t0, aggregate t0)⟩, 0) ∧
    cacheGet aggregate maxAge t2 ⟨some (t0, aggregate t0)⟩ =
      (aggregate t2, ⟨some (t2, aggregate t2)⟩, 1) := by
  refine ⟨rfl, ?_, ?_⟩
  · simp only [cacheGet, if_pos hfresh]
  · simp only [cacheGet, if_neg hstale]

/-- Witness for C8: a 30-unit window; the call at time 10 is served from the
slot cached at time 0 with zero passes, the call at time 45 re-aggregates
with exactly one pass. -/
theorem cacheGet_idempotent_within_window_witness :
    (10 : Nat) - 0 < 30 ∧ ¬ (45 : Nat) - 0 < 30 ∧
    cacheGet (fun n => n + 100) 30 0 ⟨none⟩ = (100, ⟨some (0, 100)⟩, 1) ∧
    cacheGet (fun n => n + 100) 30 10 ⟨some (0, 100)⟩ = (100, ⟨some (0, 100)⟩, 0) ∧
    cacheGet (fun n => n + 100) 30 45 ⟨some (0, 100)⟩ = (145, ⟨some (45, 145)⟩, 1) := by
  have h := cacheGet_idempotent_within_window (fun n => n + 100) 30 0 10 45
    (by decide) (by decide)
  exact ⟨by decide, by decide, h.1, h.2.1, h.2.2⟩

/-- Helper: strings with the same character data are equal. -/
theorem string_data_inj {a b : String} (h : a.data = b.data) : a = b := by
  cases a
  cases b
  exact congrArg String.mk h

/-- Helper: appending strings appends their character data. -/
theorem string_data_append : ∀ (a b : String), (a ++ b).data = a.data ++ b.data
  | ⟨_⟩, ⟨_⟩ => rfl

set_option maxRecDepth 8192 in
/-- C9: the source's term-scoped payload template (shared verbatim by the
marks, attendance-report and timetable fetches) is exactly the multipart
body with the stable boundary marker and precisely the three fixed fields:
`authorizedID` (the registration number), `semesterSubId` (the resolved
term id) and `_csrf` (the session's CSRF token), in that order. -/
theorem aiPayload_is_multipart_of_three_fields (regNo semID csrf : String) :
    aiPayload regNo semID csrf =
      multipartBody "------WebKitFormBoundary9yjNZXu7BBjgQK7J"
        [("authorizedID", regNo), ("semesterSubId", semID), ("_csrf", csrf)] := by
  apply string_data_inj
  simp only [aiPayload, multipartBody, List.foldr_cons, List.foldr_nil,
    string_data_append, List.append_assoc]
  rfl

end CliTop
